import Mathlib

/-
Verification of the call-orchestration backend against its specification.

The definitions below are a shallow embedding of the JavaScript source:
  - src/models/CallEvent.js        (CallEvent.upsert and the row it maintains)
  - src/utils/openAIRealtime.js    (realtime session: connect/reconnect chain,
                                    audio forwarding, transcript persistence)
  - the queue system module        (scheduleImmediateCall, scheduleDelayedCall,
                                    scheduleRecurringCall, scheduleBulkCalls,
                                    fetchAndScheduleNewLeads)
  - src/queues/callWorker.js       (processCallJob, handleAutomationJob,
                                    the worker wrapper updating leads)
  - the express entry point        (the /call-events webhook handler, the
                                    schedule-delayed-call route, the media
                                    websocket start/media handlers)

Timestamps are modelled as integers (ISO rendering is an order-preserving
encoding the code never inspects).  JavaScript nullable/optional string
fields are Option String, with none covering both null/undefined and the
empty string being separately visible so that JS truthiness tests can be
modelled faithfully.
-/

namespace VoMind

/-- Timestamps: the code only ever creates them with new Date() and stores
them verbatim; modelled as integers. -/
abbrev Time := Int

/-- JavaScript truthiness of a nullable string: null/undefined and the empty
string are falsy, every other string is truthy. -/
def jsTruthy : Option String → Bool
  | none => false
  | some s => !s.isEmpty

/-- JavaScript parseInt on the strings that appear in webhook payloads:
optional sign followed by leading decimal digits; NaN is modelled as none. -/
def jsParseInt (s : String) : Option Int :=
  let cs := s.data
  let signAndRest : Bool × List Char :=
    match cs with
    | '-' :: t => (true, t)
    | '+' :: t => (false, t)
    | t => (false, t)
  let ds := signAndRest.2.takeWhile Char.isDigit
  if ds.isEmpty then none
  else
    let n : Nat := ds.foldl (fun a c => a * 10 + (c.toNat - 48)) 0
    some (if signAndRest.1 then -(n : Int) else (n : Int))

/-! ## CallEvent model (src/models/CallEvent.js) -/

/-- The fields destructured from the event payload at the top of
CallEvent.upsert.  String-typed webhook fields stay Option String;
the timestamp has already been normalised by the route handler. -/
structure CallEventData where
  call_sid : String
  call_status : String
  direction : Option String := none
  from_number : Option String := none
  to_number : Option String := none
  duration : Option String := none
  call_duration : Option String := none
  recording_url : Option String := none
  recording_sid : Option String := none
  timestamp : Option Time := none
deriving Repr, DecidableEq

/-- One row of the call_events table as written by CallEvent.create /
CallEvent.update. -/
structure CallEventRow where
  call_sid : String
  call_status : String
  direction : String
  from_number : Option String := none
  to_number : Option String := none
  duration : Option Int := none
  call_duration : Option Int := none
  recording_url : Option String := none
  recording_sid : Option String := none
  timestamp : Option Time := none
  created_at : Time
  updated_at : Option Time := none
deriving Repr, DecidableEq

/-- CallEvent.upsert: looks up the existing row by call_sid; if present,
updates call_status and updated_at and merges the truthy optional fields;
otherwise inserts a fresh row with defaults.  parseInt results that would
be NaN are modelled as none. -/
def CallEvent.upsert (now : Time) (evt : CallEventData) :
    Option CallEventRow → CallEventRow
  | some r =>
      { r with
        call_status := evt.call_status
        updated_at := some now
        direction :=
          if jsTruthy evt.direction then evt.direction.getD "" else r.direction
        duration :=
          if jsTruthy evt.duration then jsParseInt (evt.duration.getD "")
          else r.duration
        call_duration :=
          if jsTruthy evt.call_duration then jsParseInt (evt.call_duration.getD "")
          else r.call_duration
        recording_url :=
          if jsTruthy evt.recording_url then some (evt.recording_url.getD "")
          else r.recording_url
        recording_sid :=
          if jsTruthy evt.recording_sid then some (evt.recording_sid.getD "")
          else r.recording_sid
        timestamp :=
          if evt.timestamp.isSome then evt.timestamp else r.timestamp }
  | none =>
      { call_sid := evt.call_sid
        call_status := evt.call_status
        direction :=
          if jsTruthy evt.direction then evt.direction.getD "" else "outbound-api"
        from_number := evt.from_number
        to_number := evt.to_number
        duration :=
          if jsTruthy evt.duration then jsParseInt (evt.duration.getD "") else none
        call_duration :=
          if jsTruthy evt.call_duration then jsParseInt (evt.call_duration.getD "")
          else none
        recording_url :=
          if jsTruthy evt.recording_url then some (evt.recording_url.getD "")
          else none
        recording_sid :=
          if jsTruthy evt.recording_sid then some (evt.recording_sid.getD "")
          else none
        timestamp := some (evt.timestamp.getD now)
        created_at := now
        updated_at := none }

/-- The terminal call statuses named by the specification. -/
def isTerminalStatus (s : String) : Bool :=
  s = "completed" || s = "failed" || s = "canceled" || s = "no-answer" || s = "busy"

/-! ### Concrete inputs used by counterexamples -/

/-- An existing row whose call has already completed. -/
def c1CompletedRow : CallEventRow :=
  { call_sid := "CA100"
    call_status := "completed"
    direction := "outbound-api"
    from_number := some "+15550000001"
    to_number := some "+15550000002"
    created_at := 10 }

/-- A late webhook carrying a non-terminal status for the same call. -/
def c1LateEvent : CallEventData :=
  { call_sid := "CA100", call_status := "in-progress" }

/-- A first-ever webhook payload for a call, used to exercise the insert
branch of upsert. -/
def c4FirstEvent : CallEventData :=
  { call_sid := "CA200", call_status := "ringing", to_number := some "+15550000003" }

/-- An update event whose optional fields are all absent. -/
def c10Event : CallEventData :=
  { call_sid := "CA100", call_status := "completed" }

/-- JavaScript string-or-default: s || d, where null/undefined and the empty
string fall through to the default. -/
def jsOrStr (o : Option String) (d : String) : String :=
  if jsTruthy o then o.getD "" else d

/-! ## Queue system (scheduleImmediateCall and friends) -/

/-- The metadata blob attached to a call job. -/
structure CallMeta where
  automationRun : Bool := false
  scheduledAt : Option Time := none
  speakFirst : Bool := false
  initialMessage : Option String := none
deriving Repr, DecidableEq

/-- The callData argument of the schedule functions. -/
structure CallData where
  «to» : Option String := none
  message : Option String := none
  lead_id : Option Nat := none
  priority : Option String := none
  metadata : CallMeta := {}
deriving Repr, DecidableEq

/-- The job.data payload the schedule functions store on the queue. -/
structure JobData where
  «to» : Option String := none
  message : Option String := none
  lead_id : Option Nat := none
  priority : String := "normal"
  metadata : CallMeta := {}
  scheduledAt : Option Time := none
  jtype : String
  batchIndex : Option Nat := none
  cronExpression : Option String := none
deriving Repr, DecidableEq

/-- A job as handed to the queue: name, data, and the BullMQ options the
schedule functions set. -/
structure JobSpec where
  name : String
  data : JobData
  priority : Nat
  delay : Option Int := none
  repeatPattern : Option String := none
deriving Repr, DecidableEq

/-- scheduleImmediateCall: adds a start-media-stream job with the inline
priority expression priority high to 1, low to 3, otherwise 2. -/
def scheduleImmediateCall (cd : CallData) (now : Time) : JobSpec :=
  let priority := cd.priority.getD "normal"
  { name := "start-media-stream"
    data :=
      { «to» := cd.«to», message := cd.message, lead_id := cd.lead_id
        priority := priority, metadata := cd.metadata
        scheduledAt := some now, jtype := "immediate" }
    priority := if priority = "high" then 1 else if priority = "low" then 3 else 2 }

/-- The delay argument of scheduleDelayedCall: a Date or a raw number of
milliseconds. -/
inductive JsDelay where
  | date (t : Time)
  | ms (n : Int)
deriving Repr, DecidableEq

/-- scheduleDelayedCall: a Date target is clamped with max(0, target - now);
a numeric delay is used as given. -/
def scheduleDelayedCall (cd : CallData) (d : JsDelay) (now : Time) : JobSpec :=
  let priority := cd.priority.getD "normal"
  let delayMs : Int :=
    match d with
    | .date t => max 0 (t - now)
    | .ms n => n
  { name := "make-call"
    data :=
      { «to» := cd.«to», message := cd.message, lead_id := cd.lead_id
        priority := priority, metadata := cd.metadata
        scheduledAt := some (match d with | .date t => t | .ms n => now + n)
        jtype := "scheduled" }
    priority := if priority = "high" then 1 else if priority = "low" then 3 else 2
    delay := some delayMs }

/-- scheduleRecurringCall: registers a repeat pattern on the job. -/
def scheduleRecurringCall (cd : CallData) (cronExpression : String) : JobSpec :=
  let priority := cd.priority.getD "normal"
  { name := "make-call"
    data :=
      { «to» := cd.«to», message := cd.message, lead_id := cd.lead_id
        priority := priority, metadata := cd.metadata
        cronExpression := some cronExpression, jtype := "recurring" }
    priority := if priority = "high" then 1 else if priority = "low" then 3 else 2
    repeatPattern := some cronExpression }

/-- The indexed map inside scheduleBulkCalls ((callData, index) goes to a
make-call job). -/
def scheduleBulkCallsFrom (now : Time) (index : Nat) :
    List CallData → List JobSpec
  | [] => []
  | cd :: rest =>
      { name := "make-call"
        data :=
          { «to» := cd.«to», message := cd.message, lead_id := cd.lead_id
            priority := cd.priority.getD "normal", metadata := cd.metadata
            scheduledAt := some now, jtype := "bulk", batchIndex := some index }
        priority :=
          if cd.priority = some "high" then 1
          else if cd.priority = some "low" then 3 else 2 } ::
      scheduleBulkCallsFrom now (index + 1) rest

/-- scheduleBulkCalls: one atomic addBulk of the mapped list. -/
def scheduleBulkCalls (cds : List CallData) (now : Time) : List JobSpec :=
  scheduleBulkCallsFrom now 0 cds

/-! ## Lead store and the refill paths -/

/-- One row of the leads table, restricted to the fields these code paths
read or write. -/
structure Lead where
  id : Nat
  phone : Option String := none
  lead_status : String := "new"
  call_sid : Option String := none
  last_contacted_at : Option Time := none
  notes : Option String := none
deriving Repr, DecidableEq

/-- The lead-store query both refill paths run: lead_status = new,
call_sid IS NULL, limit leadLimit. -/
def queryNewLeads (leads : List Lead) (leadLimit : Nat) : List Lead :=
  (leads.filter fun l => l.lead_status = "new" && l.call_sid = none).take leadLimit

/-- The result the refill paths report. -/
structure AutomationResult where
  scheduled : Nat
  jobs : List JobSpec
deriving Repr, DecidableEq

/-- fetchAndScheduleNewLeads: query up to leadLimit new un-called leads,
keep those with a truthy phone, map them to callData carrying the
automationRun metadata, and bulk-enqueue; reports scheduled = number of
jobs added (0 on the two early returns). -/
def fetchAndScheduleNewLeads (leads : List Lead) (message priority : Option String)
    (leadLimit : Option Nat) (now : Time) : AutomationResult :=
  let message := message.getD "Hello from VoMindAI. We have an opportunity for you."
  let priority := priority.getD "normal"
  let newLeads := queryNewLeads leads (leadLimit.getD 10)
  if newLeads.isEmpty then { scheduled := 0, jobs := [] }
  else
    let callsToSchedule :=
      (newLeads.filter fun l => jsTruthy l.phone).map fun l =>
        ({ «to» := l.phone, message := some message, lead_id := some l.id
           priority := some priority
           metadata := { automationRun := true, scheduledAt := some now } } : CallData)
    if callsToSchedule.isEmpty then { scheduled := 0, jobs := [] }
    else
      let scheduledJobs := scheduleBulkCalls callsToSchedule now
      { scheduled := scheduledJobs.length, jobs := scheduledJobs }

/-- handleAutomationJob (the worker-side refill): same query and phone
filter, but each lead is enqueued individually with the inline priority
expression priority high to 10, low to 1, otherwise 5. -/
def handleAutomationJob (leads : List Lead) (message priority : Option String)
    (leadLimit : Nat) (now : Time) : AutomationResult :=
  let newLeads := queryNewLeads leads leadLimit
  if newLeads.isEmpty then { scheduled := 0, jobs := [] }
  else
    let leadsToCall := newLeads.filter fun l => jsTruthy l.phone
    if leadsToCall.isEmpty then { scheduled := 0, jobs := [] }
    else
      let jobs := leadsToCall.map fun l =>
        ({ name := "make-call"
           data :=
             { «to» := l.phone, message := message, lead_id := some l.id
               priority := jsOrStr priority "normal"
               metadata := { automationRun := true, scheduledAt := some now }
               jtype := "automation" }
           priority :=
             if priority = some "high" then 10
             else if priority = some "low" then 1 else 5 } : JobSpec)
      { scheduled := jobs.length, jobs := jobs }

/-! ## The schedule-delayed-call HTTP route -/

/-- The request body of POST /api/queue/schedule-delayed-call. -/
structure DelayedCallBody where
  «to» : Option String := none
  message : Option String := none
  lead_id : Option Nat := none
  priority : Option String := none
  metadata : Option CallMeta := none
  scheduleAt : Option Time := none
  delayMs : Option Int := none
  speakFirst : Option Bool := none
  initialMessage : Option String := none
deriving Repr, DecidableEq

/-- The delayed-call route handler: rejects a falsy to; rejects when both
scheduleAt and delayMs are falsy (a delayMs of 0 is falsy in JavaScript);
otherwise builds the delay as a Date when scheduleAt is present and as the
raw number otherwise, and calls scheduleDelayedCall. -/
def scheduleDelayedRoute (b : DelayedCallBody) (now : Time) :
    Except String JobSpec :=
  if !jsTruthy b.«to» then .error "Phone number is required"
  else if b.scheduleAt = none && (b.delayMs = none || b.delayMs = some 0) then
    .error "Either scheduleAt (ISO date) or delayMs (milliseconds) is required"
  else
    let callMetadata := b.metadata.getD {}
    let callMetadata :=
      if b.speakFirst = some true then
        { callMetadata with
          speakFirst := true
          initialMessage :=
            some (jsOrStr b.initialMessage "Hello! How can I help you today?") }
      else callMetadata
    .ok (scheduleDelayedCall
      { «to» := b.«to»
        message := some (jsOrStr b.message "Hello from VoMindAI")
        lead_id := b.lead_id
        priority := some (jsOrStr b.priority "normal")
        metadata := callMetadata }
      (match b.scheduleAt with
       | some t => .date t
       | none => .ms (b.delayMs.getD 0))
      now)

/-! ## Call worker (src/queues/callWorker.js) -/

/-- What the telephony provider returns from calls.create. -/
structure TwilioCall where
  sid : String
  status : String
deriving Repr, DecidableEq

/-- The value a successful place-call job returns. -/
structure JobResult where
  success : Bool
  callSid : String
  «to» : String
  status : String
  lead_id : Option Nat := none
  timestamp : Time
deriving Repr, DecidableEq

/-- processCallJob: the missing-number check and the provider call both sit
inside one try whose catch rethrows with the Failed-to-initiate prefix; on
success the job returns the call sid, number, and provider status.  The
provider outcome is an explicit argument since the network is external. -/
def processCallJob (jd : JobData) (tw : Except String TwilioCall) (now : Time) :
    Except String JobResult :=
  if !jsTruthy jd.«to» then
    .error "Failed to initiate call: Phone number is required"
  else
    match tw with
    | .error e => .error ("Failed to initiate call: " ++ e)
    | .ok c =>
        .ok { success := true, callSid := c.sid, «to» := jd.«to».getD ""
              status := c.status, lead_id := jd.lead_id, timestamp := now }

/-- The models.Lead.update call the worker makes after a successful
initiation: set call_sid, mark contacted, stamp last_contacted_at, note. -/
def Lead.applyWorkerUpdate (leads : List Lead) (i : Nat) (callSid : String)
    (now : Time) : List Lead :=
  leads.map fun l =>
    if l.id = i then
      { l with
        call_sid := some callSid
        lead_status := "contacted"
        last_contacted_at := some now
        notes := some ("Outbound call " ++ callSid ++ " initiated") }
    else l

/-- The worker wrapper around processCallJob: on success with models
available and a lead_id present it attempts the lead update; a database
failure (dbOk = false) is caught and logged and the job still returns its
result. -/
def workerProcess (modelsAvailable : Bool) (jd : JobData)
    (tw : Except String TwilioCall) (dbOk : Bool) (leads : List Lead)
    (now : Time) : Except String JobResult × List Lead :=
  match processCallJob jd tw now with
  | .error e => (.error e, leads)
  | .ok r =>
      if modelsAvailable && r.success then
        match r.lead_id with
        | some i =>
            if dbOk then (.ok r, Lead.applyWorkerUpdate leads i r.callSid now)
            else (.ok r, leads)
        | none => (.ok r, leads)
      else (.ok r, leads)

/-! ## Media bridge (src/utils/openAIRealtime.js and the websocket handler) -/

/-- The per-attempt connection deadline in connect(), in milliseconds. -/
def connectTimeoutMs : Nat := 10000

/-- this.maxRetries in the session constructor. -/
def sessionMaxRetries : Nat := 3

/-- The AI-socket connection as the forwarding code observes it. -/
structure AIConn where
  isConnected : Bool
  wsOpen : Bool
deriving Repr, DecidableEq

/-- A message produced for the AI socket. -/
structure OpenAIOut where
  type : String
  audio : String
deriving Repr, DecidableEq

/-- sendToOpenAI: drops the message unless the socket exists and the
session is connected. -/
def sendToOpenAI (conn : AIConn) (m : OpenAIOut) : Option OpenAIOut :=
  if conn.wsOpen && conn.isConnected then some m else none

/-- handleIncomingAudio: skips when not connected, otherwise forwards the
payload as an input_audio_buffer.append message. -/
def handleIncomingAudio (conn : AIConn) (payload : String) : Option OpenAIOut :=
  if !conn.isConnected then none
  else sendToOpenAI conn { type := "input_audio_buffer.append", audio := payload }

/-- The media case of the provider-socket message handler: only frames
with track inbound and an initialized session reach handleIncomingAudio. -/
def mediaEventForward (session : Option AIConn) (track payload : String) :
    Option OpenAIOut :=
  if track = "inbound" then
    match session with
    | some conn => handleIncomingAudio conn payload
    | none => none
  else none

/-- The session-level connection state the connect/reconnect logic updates. -/
structure SessState where
  connectionAttempts : Nat := 0
  isConnected : Bool := false
  hasFailed : Bool := false
  fallbackSent : Bool := false
deriving Repr, DecidableEq

/-- One session's connect/close/reconnect chain over a list of attempt
outcomes: connect() increments connectionAttempts and on success resets it
and clears hasFailed; on a non-1000 close with retries left a reconnect is
scheduled; when a reconnect's connect fails with attempts at the cap, the
catch sets hasFailed and sends the fallback marker, and nothing further is
scheduled. -/
def runConnectChain (s : SessState) : List Bool → SessState
  | [] => s
  | ok :: rest =>
      let s1 := { s with connectionAttempts := s.connectionAttempts + 1 }
      if ok then
        { s1 with isConnected := true, connectionAttempts := 0, hasFailed := false }
      else if s1.connectionAttempts < sessionMaxRetries && !s1.hasFailed then
        runConnectChain s1 rest
      else
        { s1 with hasFailed := true, fallbackSent := true }

/-- maxRetries in the websocket start-handler initialization loop. -/
def handlerMaxRetries : Nat := 3

/-- What the start handler ends up with after its initialization loop. -/
structure InitResult where
  session : Option AIConn := none
  clearSent : Bool := false
  attemptsUsed : Nat := 0
deriving Repr, DecidableEq

/-- The start handler's while loop (maxRetries = 3), unrolled to its three
iterations: attempt k awaits the first connect outcome of the k-th freshly
created session; when the third awaited attempt fails the handler sends
the clear event on the provider socket and leaves the session unset.
Crucially, the handler abandons each failed session without calling
close() on it, so that session's own close-handler reconnect chain keeps
running in the background; that continuation is modelled by the
definitions that follow. -/
def initOpenAI (outcome : Nat → Bool) : InitResult :=
  if outcome 0 then
    { session := some { isConnected := true, wsOpen := true }
      clearSent := false, attemptsUsed := 1 }
  else if outcome 1 then
    { session := some { isConnected := true, wsOpen := true }
      clearSent := false, attemptsUsed := 2 }
  else if outcome 2 then
    { session := some { isConnected := true, wsOpen := true }
      clearSent := false, attemptsUsed := 3 }
  else
    { session := none, clearSent := true, attemptsUsed := 3 }

/-- The number of connect() calls one session's chain makes, given its
per-attempt outcomes: it stops at the first success and the chain is
capped at maxRetries = 3.  After a failed first attempt the close handler
(attempts = 1 < 3, hasFailed still false) always schedules a background
reconnect, so such a session makes at least a second attempt even when
the start handler has already abandoned it. -/
def sessionAttemptCount (f : Nat → Bool) : Nat :=
  if f 0 then 1 else if f 1 then 2 else 3

/-- Connect outcomes for a whole call, composing the two retry loops:
outcome k j is the result of the j-th connect attempt of the k-th session
the start handler creates (j = 0 is the attempt the handler awaits;
j = 1, 2 are the background reconnect attempts of an abandoned session).
The total attempt count sums the kept session's single successful attempt
with the full chains of every abandoned session. -/
def callTotalAttempts (outcome : Nat → Nat → Bool) : Nat :=
  if outcome 0 0 then 1
  else if outcome 1 0 then sessionAttemptCount (outcome 0) + 1
  else if outcome 2 0 then
    sessionAttemptCount (outcome 0) + sessionAttemptCount (outcome 1) + 1
  else
    sessionAttemptCount (outcome 0) + sessionAttemptCount (outcome 1) +
      sessionAttemptCount (outcome 2)

/-- Whether some abandoned session's background chain ends connected.  Such
an orphan still holds the database models and its message handler still
calls saveTranscriptToDatabase on transcription events (and, with
speakFirst set, injects the initial assistant message on open), so it can
produce transcript writes after the clear marker was sent. -/
def orphanEventuallyConnects (outcome : Nat → Nat → Bool) : Bool :=
  if outcome 0 0 then false
  else if outcome 1 0 then
    (runConnectChain {} [outcome 0 0, outcome 0 1, outcome 0 2]).isConnected
  else if outcome 2 0 then
    (runConnectChain {} [outcome 0 0, outcome 0 1, outcome 0 2]).isConnected ||
      (runConnectChain {} [outcome 1 0, outcome 1 1, outcome 1 2]).isConnected
  else
    (runConnectChain {} [outcome 0 0, outcome 0 1, outcome 0 2]).isConnected ||
      ((runConnectChain {} [outcome 1 0, outcome 1 1, outcome 1 2]).isConnected ||
        (runConnectChain {} [outcome 2 0, outcome 2 1, outcome 2 2]).isConnected)

/-- Every connect attempt of every session fails. -/
def c5AllFail : Nat → Nat → Bool := fun _ _ => false

/-- All three handler-awaited attempts fail (so the clear marker is sent),
but the first abandoned session's first background reconnect succeeds. -/
def c5OrphanRevival : Nat → Nat → Bool := fun k j => k == 0 && j == 1

/-! ## Transcript persistence (saveTranscriptToDatabase) -/

/-- One row of conversation_transcripts as this code path writes it. -/
structure TranscriptRow where
  call_sid : String
  message_id : Option String := none
  role : String
  content : String
  timestamp : Time
deriving Repr, DecidableEq

/-- saveTranscriptToDatabase, restricted to its effect on the call_events
row for this call and on conversation_transcripts: ensure a minimal
in-progress call_events row exists, then insert the transcript row
unconditionally.  (The trailing lead-backlink step touches only the leads
table and is modelled by Lead.applyWorkerUpdate-style operations
elsewhere.) -/
def saveTranscriptToDatabase (ce : Option CallEventRow)
    (transcripts : List TranscriptRow) (callSid role content : String)
    (messageId : Option String) (now : Time) :
    Option CallEventRow × List TranscriptRow :=
  let ce' :=
    match ce with
    | some e => some e
    | none =>
        some { call_sid := callSid, call_status := "in-progress"
               direction := "inbound", created_at := now }
  (ce', transcripts ++
    [{ call_sid := callSid, message_id := messageId, role := role
       content := content, timestamp := now }])

/-- The number of transcript rows stored for a given call and provider
message id. -/
def transcriptCount (ts : List TranscriptRow) (sid : String)
    (mid : Option String) : Nat :=
  (ts.filter fun t => t.call_sid = sid && t.message_id = mid).length

/-! ### Concrete demo values for witnesses and counterexamples -/

/-- A fresh lead with a phone number, as the refill query returns it. -/
def demoLead : Lead :=
  { id := 1, phone := some "+15551234567" }

/-- A small lead store: two callable new leads, one without a phone, one
already contacted. -/
def demoLeads : List Lead :=
  [ { id := 1, phone := some "+15551234567" }
  , { id := 2, phone := none }
  , { id := 3, phone := some "+15559876543" }
  , { id := 4, phone := some "+15550001111", lead_status := "contacted" } ]

/-- Job data for a place-call job carrying a lead id. -/
def demoJobData : JobData :=
  { «to» := some "+15551234567", message := some "Hello", lead_id := some 1
    jtype := "immediate" }

/-- A provider response for a successfully created call. -/
def demoTwilioCall : TwilioCall :=
  { sid := "CA123", status := "queued" }

/-- An existing call_events row used when exercising the update branch. -/
def c10Row : CallEventRow :=
  { call_sid := "CA100"
    call_status := "in-progress"
    direction := "outbound-api"
    from_number := some "+15550000001"
    to_number := some "+15550000002"
    created_at := 10 }

/-! # Helper lemmas -/

/-- Re-applying a guarded assignment is absorbed by the first application. -/
theorem ite_ite_same {α : Type} (c : Prop) [Decidable c] (x y : α) :
    (if c then x else if c then x else y) = if c then x else y := by
  by_cases h : c <;> simp [h]

/-- Conditionally keeping an optional value that the first pass already
defaulted collapses to the defaulted value. -/
theorem isSome_ite_getD {α : Type} (o : Option α) (d : α) :
    (if o.isSome then o else some (o.getD d)) = some (o.getD d) := by
  cases o <;> simp

/-- The priorities of the jobs scheduleBulkCalls produces, positionally. -/
theorem scheduleBulkCallsFrom_get_priority (now : Time) (cds : List CallData) :
    ∀ (idx i : Nat),
      ((scheduleBulkCallsFrom now idx cds).get? i).map JobSpec.priority =
        (cds.get? i).map fun cd =>
          if cd.priority = some "high" then 1
          else if cd.priority = some "low" then 3 else 2 := by
  induction cds with
  | nil => intro idx i; simp [scheduleBulkCallsFrom]
  | cons cd rest ih =>
      intro idx i
      cases i with
      | zero => simp [scheduleBulkCallsFrom]
      | succ n => simpa [scheduleBulkCallsFrom] using ih (idx + 1) n

/-- Bulk scheduling adds exactly one job per call. -/
theorem scheduleBulkCallsFrom_length (now : Time) (cds : List CallData) :
    ∀ idx : Nat, (scheduleBulkCallsFrom now idx cds).length = cds.length := by
  induction cds with
  | nil => intro idx; simp [scheduleBulkCallsFrom]
  | cons cd rest ih => intro idx; simp [scheduleBulkCallsFrom, ih (idx + 1)]

/-- The destination numbers of the bulk jobs, in order. -/
theorem scheduleBulkCallsFrom_map_to (now : Time) (cds : List CallData) :
    ∀ idx : Nat,
      (scheduleBulkCallsFrom now idx cds).map (fun j => j.data.«to») =
        cds.map fun cd => cd.«to» := by
  induction cds with
  | nil => intro idx; simp [scheduleBulkCallsFrom]
  | cons cd rest ih => intro idx; simp [scheduleBulkCallsFrom, ih (idx + 1)]

/-- Every bulk job carries the metadata and name of its source call. -/
theorem scheduleBulkCallsFrom_mem (now : Time) (cds : List CallData) :
    ∀ idx : Nat, ∀ j ∈ scheduleBulkCallsFrom now idx cds,
      ∃ cd ∈ cds, j.data.metadata = cd.metadata ∧ j.name = "make-call" := by
  induction cds with
  | nil => intro idx j hj; simp [scheduleBulkCallsFrom] at hj
  | cons cd rest ih =>
      intro idx j hj
      simp only [scheduleBulkCallsFrom, List.mem_cons] at hj
      rcases hj with rfl | hj
      · exact ⟨cd, by simp, rfl, rfl⟩
      · rcases ih (idx + 1) j hj with ⟨cd', hcd', hm, hn⟩
        exact ⟨cd', by simp [hcd'], hm, hn⟩

/-- One session's connect/reconnect chain ends connected exactly when some
of its three attempt outcomes succeeds. -/
theorem runConnectChain_isConnected (f : Nat → Bool) :
    (runConnectChain {} [f 0, f 1, f 2]).isConnected = (f 0 || f 1 || f 2) := by
  cases h0 : f 0 <;> cases h1 : f 1 <;> cases h2 : f 2 <;>
    simp [runConnectChain, sessionMaxRetries, h0, h1, h2]

/-- A session chain makes at most three connect attempts. -/
theorem sessionAttemptCount_le_three (f : Nat → Bool) :
    sessionAttemptCount f ≤ 3 := by
  simp only [sessionAttemptCount]
  split
  · omega
  · split <;> omega

/-! # Claim theorems -/

/-- C1 counterexample: an existing row whose call_status is terminal
(completed) and a later event with the non-terminal status in-progress;
after upsert the stored status is in-progress, i.e. no longer terminal. -/
theorem c1_counterexample :
    isTerminalStatus c1CompletedRow.call_status = true ∧
    (CallEvent.upsert 20 c1LateEvent (some c1CompletedRow)).call_status = "in-progress" ∧
    isTerminalStatus
      (CallEvent.upsert 20 c1LateEvent (some c1CompletedRow)).call_status = false := by
  refine ⟨rfl, rfl, rfl⟩

/-- C1 (amended): CallEvent.upsert has no terminal-status guard; it always
overwrites the stored call_status with the incoming event's status, so a
later non-terminal event does regress a terminal one. -/
theorem c1_upsert_overwrites_status (now : Time) (evt : CallEventData)
    (existing : Option CallEventRow) :
    (CallEvent.upsert now evt existing).call_status = evt.call_status := by
  cases existing <;> rfl

/-- C4 counterexample: replaying the first webhook for a call does not
reproduce the same row, because the insert branch leaves updated_at null
while the replayed update branch sets it. -/
theorem c4_counterexample :
    (CallEvent.upsert 5 c4FirstEvent none).updated_at = none ∧
    (CallEvent.upsert 5 c4FirstEvent
        (some (CallEvent.upsert 5 c4FirstEvent none))).updated_at = some 5 ∧
    CallEvent.upsert 5 c4FirstEvent
        (some (CallEvent.upsert 5 c4FirstEvent none)) ≠
      CallEvent.upsert 5 c4FirstEvent none := by
  refine ⟨rfl, rfl, ?_⟩
  intro h
  have h2 := congrArg CallEventRow.updated_at h
  simp [CallEvent.upsert, c4FirstEvent] at h2

/-- C4 (amended): replaying the same status webhook (same payload, same
clock) is idempotent on every stored field except updated_at, which the
replay sets to the processing time. -/
theorem c4_upsert_replay (now : Time) (evt : CallEventData)
    (existing : Option CallEventRow) :
    CallEvent.upsert now evt (some (CallEvent.upsert now evt existing)) =
      { CallEvent.upsert now evt existing with updated_at := some now } := by
  cases existing <;>
    simp only [CallEvent.upsert, ite_ite_same, isSome_ite_getD]

/-- C10: the update branch of upsert leaves from_number, to_number,
call_sid and created_at untouched, writes call_status and updated_at, and
leaves each optional field unchanged when the incoming value is falsy. -/
theorem c10_update_frame (now : Time) (evt : CallEventData) (r : CallEventRow) :
    ((CallEvent.upsert now evt (some r)).from_number = r.from_number) ∧
    ((CallEvent.upsert now evt (some r)).to_number = r.to_number) ∧
    ((CallEvent.upsert now evt (some r)).call_sid = r.call_sid) ∧
    ((CallEvent.upsert now evt (some r)).created_at = r.created_at) ∧
    ((CallEvent.upsert now evt (some r)).call_status = evt.call_status) ∧
    ((CallEvent.upsert now evt (some r)).updated_at = some now) ∧
    (jsTruthy evt.direction = false →
      (CallEvent.upsert now evt (some r)).direction = r.direction) ∧
    (jsTruthy evt.duration = false →
      (CallEvent.upsert now evt (some r)).duration = r.duration) ∧
    (jsTruthy evt.call_duration = false →
      (CallEvent.upsert now evt (some r)).call_duration = r.call_duration) ∧
    (jsTruthy evt.recording_url = false →
      (CallEvent.upsert now evt (some r)).recording_url = r.recording_url) ∧
    (jsTruthy evt.recording_sid = false →
      (CallEvent.upsert now evt (some r)).recording_sid = r.recording_sid) ∧
    (evt.timestamp = none →
      (CallEvent.upsert now evt (some r)).timestamp = r.timestamp) := by
  refine ⟨rfl, rfl, rfl, rfl, rfl, rfl, ?_, ?_, ?_, ?_, ?_, ?_⟩ <;>
    intro h <;> simp [CallEvent.upsert, h]

/-- C10 witness: the frame theorem applied at a concrete row and an event
with all optional fields absent. -/
theorem c10_witness :
    ((CallEvent.upsert 20 c10Event (some c10Row)).from_number = c10Row.from_number) ∧
    ((CallEvent.upsert 20 c10Event (some c10Row)).to_number = c10Row.to_number) ∧
    ((CallEvent.upsert 20 c10Event (some c10Row)).direction = c10Row.direction) := by
  have h := c10_update_frame 20 c10Event c10Row
  exact ⟨h.1, h.2.1, h.2.2.2.2.2.2.1 rfl⟩

/-- C2 counterexample: the refill worker's per-lead enqueue
(handleAutomationJob) adds the job for a high-priority run with BullMQ
priority 10, not 1 as the fixed mapping requires. -/
theorem c2_counterexample :
    ((handleAutomationJob [demoLead] (some "hi") (some "high") 10 0).jobs.map
        JobSpec.priority = [10]) ∧
    (10 ≠ 1) := by
  exact ⟨rfl, by decide⟩

/-- C2 (amended): the fixed mapping high to 1, normal to 2, low to 3 holds
for scheduleImmediateCall, scheduleDelayedCall, scheduleRecurringCall and
scheduleBulkCalls, but the refill worker's per-lead enqueue in
handleAutomationJob instead uses high to 10, normal to 5, low to 1. -/
theorem c2_priority_mapping (cd : CallData) (now : Time) (d : JsDelay)
    (cron : String) :
    (cd.priority = some "high" →
      (scheduleImmediateCall cd now).priority = 1 ∧
      (scheduleDelayedCall cd d now).priority = 1 ∧
      (scheduleRecurringCall cd cron).priority = 1) ∧
    (cd.priority = some "normal" →
      (scheduleImmediateCall cd now).priority = 2 ∧
      (scheduleDelayedCall cd d now).priority = 2 ∧
      (scheduleRecurringCall cd cron).priority = 2) ∧
    (cd.priority = some "low" →
      (scheduleImmediateCall cd now).priority = 3 ∧
      (scheduleDelayedCall cd d now).priority = 3 ∧
      (scheduleRecurringCall cd cron).priority = 3) ∧
    (∀ (cds : List CallData) (i : Nat) (cd' : CallData), cds.get? i = some cd' →
      (cd'.priority = some "high" →
        ((scheduleBulkCalls cds now).get? i).map JobSpec.priority = some 1) ∧
      (cd'.priority = some "normal" →
        ((scheduleBulkCalls cds now).get? i).map JobSpec.priority = some 2) ∧
      (cd'.priority = some "low" →
        ((scheduleBulkCalls cds now).get? i).map JobSpec.priority = some 3)) ∧
    (∀ (leads : List Lead) (msg p : Option String) (lim : Nat) (j : JobSpec),
      j ∈ (handleAutomationJob leads msg p lim now).jobs →
      (p = some "high" → j.priority = 10) ∧
      (p = some "normal" → j.priority = 5) ∧
      (p = some "low" → j.priority = 1)) := by
  refine ⟨?_, ?_, ?_, ?_, ?_⟩
  · intro h
    simp [scheduleImmediateCall, scheduleDelayedCall, scheduleRecurringCall, h]
  · intro h
    simp [scheduleImmediateCall, scheduleDelayedCall, scheduleRecurringCall, h]
  · intro h
    simp [scheduleImmediateCall, scheduleDelayedCall, scheduleRecurringCall, h]
  · intro cds i cd' hget
    have hbulk := scheduleBulkCallsFrom_get_priority now cds 0 i
    rw [hget] at hbulk
    refine ⟨?_, ?_, ?_⟩ <;> intro h <;>
      simp only [scheduleBulkCalls] <;> rw [hbulk] <;> simp [h]
  · intro leads msg p lim j hj
    simp only [handleAutomationJob] at hj
    split at hj
    · simp at hj
    · split at hj
      · simp at hj
      · simp only [List.mem_map] at hj
        rcases hj with ⟨l, _, rfl⟩
        refine ⟨?_, ?_, ?_⟩ <;> intro h <;> simp [h]

/-- C2 witness: the four schedule paths at a concrete high-priority call. -/
theorem c2_witness :
    (scheduleImmediateCall { «to» := some "+15551234567", priority := some "high" } 0).priority = 1 ∧
    (scheduleDelayedCall { «to» := some "+15551234567", priority := some "high" } (.ms 100) 0).priority = 1 := by
  have h := (c2_priority_mapping
    { «to» := some "+15551234567", priority := some "high" } 0 (.ms 100) "0 9 * * *").1 rfl
  exact ⟨h.1, h.2.1⟩

/-- C3 counterexample: processing the same transcription-completed event
twice (same call_sid, role, content and message id) stores two rows for
that call and message id, not one. -/
theorem c3_counterexample :
    transcriptCount
      (saveTranscriptToDatabase
        (saveTranscriptToDatabase none [] "CA999" "user" "hello" (some "item_1") 7).1
        (saveTranscriptToDatabase none [] "CA999" "user" "hello" (some "item_1") 7).2
        "CA999" "user" "hello" (some "item_1") 7).2
      "CA999" (some "item_1") = 2 ∧
    (2 ≠ 1) := by
  exact ⟨rfl, by decide⟩

/-- C3 (amended): saveTranscriptToDatabase inserts the transcript row
unconditionally, with no deduplication by (call_sid, message_id): each
processing of the event adds one more matching row, so a replay yields two
rows rather than one. -/
theorem c3_transcript_insert_not_deduped (ce : Option CallEventRow)
    (ts : List TranscriptRow) (sid role content : String) (mid : Option String)
    (now : Time) :
    transcriptCount (saveTranscriptToDatabase ce ts sid role content mid now).2
        sid mid =
      transcriptCount ts sid mid + 1 ∧
    transcriptCount
        (saveTranscriptToDatabase
          (saveTranscriptToDatabase ce ts sid role content mid now).1
          (saveTranscriptToDatabase ce ts sid role content mid now).2
          sid role content mid now).2 sid mid =
      transcriptCount ts sid mid + 2 := by
  constructor <;>
    simp [saveTranscriptToDatabase, transcriptCount, List.filter_append]

/-- C6 counterexample: a numeric delayMs is not clamped, so a negative
delay of -5000 ms is enqueued as-is; and the HTTP route rejects
delayMs = 0 as a missing parameter instead of treating it as immediate. -/
theorem c6_counterexample :
    ((scheduleDelayedCall { «to» := some "+15551234567" } (.ms (-5000)) 1000).delay
        = some (-5000)) ∧
    ((-5000 : Int) ≠ 0) ∧
    (scheduleDelayedRoute { «to» := some "+15551234567", delayMs := some 0 } 1000 =
      .error "Either scheduleAt (ISO date) or delayMs (milliseconds) is required") := by
  refine ⟨rfl, by decide, rfl⟩

/-- C6 (amended): the max(0, target - now) clamp applies only when the
delay is given as a Date (so a past scheduleAt yields 0); a numeric
delayMs is enqueued unchanged, negative values included; a delayMs of 0
yields delay 0 at the function level but is rejected as missing by the
HTTP route, whose falsy-presence check treats 0 like an absent field. -/
theorem c6_delay_semantics (cd : CallData) (t now : Time) (n : Int) :
    ((scheduleDelayedCall cd (.date t) now).delay = some (max 0 (t - now))) ∧
    ((scheduleDelayedCall cd (.ms n) now).delay = some n) ∧
    ((scheduleDelayedCall cd (.ms 0) now).delay = some 0) ∧
    (∀ b : DelayedCallBody, jsTruthy b.«to» = true → b.scheduleAt = none →
      b.delayMs = some 0 →
      scheduleDelayedRoute b now =
        .error "Either scheduleAt (ISO date) or delayMs (milliseconds) is required") := by
  refine ⟨rfl, rfl, rfl, ?_⟩
  intro b hto hs hd
  simp [scheduleDelayedRoute, hto, hs, hd]

/-- C6 witness: a scheduleAt 500 ms in the past at now = 1000 yields delay
0, and the route rejects a concrete body with delayMs 0. -/
theorem c6_witness :
    ((scheduleDelayedCall { «to» := some "+15551234567" } (.date 500) 1000).delay
        = some (max 0 (500 - 1000))) ∧
    (scheduleDelayedRoute
        { «to» := some "+15559876543", delayMs := some 0 } 1000 =
      .error "Either scheduleAt (ISO date) or delayMs (milliseconds) is required") := by
  have h := c6_delay_semantics { «to» := some "+15551234567" } 500 1000 0
  exact ⟨h.1, h.2.2.2 { «to» := some "+15559876543", delayMs := some 0 } rfl rfl rfl⟩

/-- C7: fetchAndScheduleNewLeads fetches at most leadLimit new un-called
leads, enqueues a make-call job exactly for those with a truthy phone,
stamps each job's metadata with automationRun and the run time, and
reports scheduled equal to the number of jobs (0 when there are no
matching leads or leadLimit is 0). -/
theorem c7_refill_scheduling (leads : List Lead) (message priority : Option String)
    (leadLimit : Nat) (now : Time) :
    ((fetchAndScheduleNewLeads leads message priority (some leadLimit) now).scheduled =
      (fetchAndScheduleNewLeads leads message priority (some leadLimit) now).jobs.length) ∧
    ((fetchAndScheduleNewLeads leads message priority (some leadLimit) now).scheduled =
      ((queryNewLeads leads leadLimit).filter fun l => jsTruthy l.phone).length) ∧
    ((fetchAndScheduleNewLeads leads message priority (some leadLimit) now).scheduled ≤
      leadLimit) ∧
    (leadLimit = 0 →
      (fetchAndScheduleNewLeads leads message priority (some leadLimit) now).scheduled = 0) ∧
    ((leads.filter fun l => l.lead_status = "new" && l.call_sid = none) = [] →
      (fetchAndScheduleNewLeads leads message priority (some leadLimit) now).scheduled = 0) ∧
    ((fetchAndScheduleNewLeads leads message priority (some leadLimit) now).jobs.map
        (fun j => j.data.«to») =
      ((queryNewLeads leads leadLimit).filter fun l => jsTruthy l.phone).map
        fun l => l.phone) ∧
    (∀ j ∈ (fetchAndScheduleNewLeads leads message priority (some leadLimit) now).jobs,
      j.data.metadata.automationRun = true ∧
      j.data.metadata.scheduledAt = some now ∧ j.name = "make-call") := by
  have hcount :
      (fetchAndScheduleNewLeads leads message priority (some leadLimit) now).scheduled =
        ((queryNewLeads leads leadLimit).filter fun l => jsTruthy l.phone).length := by
    simp only [fetchAndScheduleNewLeads, Option.getD]
    split
    · rename_i he
      rw [List.isEmpty_iff] at he
      simp [he]
    · split
      · rename_i he2
        rw [List.isEmpty_iff, List.map_eq_nil_iff] at he2
        simp [he2]
      · simp [scheduleBulkCalls, scheduleBulkCallsFrom_length]
  have hlen :
      (fetchAndScheduleNewLeads leads message priority (some leadLimit) now).scheduled =
        (fetchAndScheduleNewLeads leads message priority (some leadLimit) now).jobs.length := by
    simp only [fetchAndScheduleNewLeads, Option.getD]
    split
    · rfl
    · split
      · rfl
      · simp [scheduleBulkCalls, scheduleBulkCallsFrom_length]
  have hbound :
      ((queryNewLeads leads leadLimit).filter fun l => jsTruthy l.phone).length ≤
        leadLimit := by
    calc ((queryNewLeads leads leadLimit).filter fun l => jsTruthy l.phone).length
        ≤ (queryNewLeads leads leadLimit).length := List.length_filter_le _ _
      _ ≤ leadLimit := by
          simp only [queryNewLeads]
          exact List.length_take_le _ _
  refine ⟨hlen, hcount, ?_, ?_, ?_, ?_, ?_⟩
  · rw [hcount]; exact hbound
  · intro h0
    rw [hcount]
    have : ((queryNewLeads leads leadLimit).filter fun l => jsTruthy l.phone).length ≤ 0 := by
      rw [h0] at hbound ⊢; exact hbound
    omega
  · intro hnil
    rw [hcount]
    simp [queryNewLeads, hnil]
  · simp only [fetchAndScheduleNewLeads, Option.getD]
    split
    · rename_i he
      rw [List.isEmpty_iff] at he
      simp [he]
    · split
      · rename_i he2
        rw [List.isEmpty_iff, List.map_eq_nil_iff] at he2
        simp [he2]
      · simp only [scheduleBulkCalls]
        rw [scheduleBulkCallsFrom_map_to]
        simp [Function.comp]
  · intro j hj
    simp only [fetchAndScheduleNewLeads, Option.getD] at hj
    split at hj
    · simp at hj
    · split at hj
      · simp at hj
      · simp only [scheduleBulkCalls] at hj
        rcases scheduleBulkCallsFrom_mem now _ 0 j hj with ⟨cd, hcd, hmeta, hname⟩
        simp only [List.mem_map] at hcd
        rcases hcd with ⟨l, _, rfl⟩
        rw [hmeta]
        exact ⟨rfl, rfl, hname⟩

/-- C7 witness: on the demo lead store (two callable new leads, one
phoneless, one already contacted), count equals the number of jobs, and a
leadLimit of 0 schedules nothing. -/
theorem c7_witness :
    ((fetchAndScheduleNewLeads demoLeads none none (some 10) 5).scheduled =
      (fetchAndScheduleNewLeads demoLeads none none (some 10) 5).jobs.length) ∧
    ((fetchAndScheduleNewLeads demoLeads none none (some 0) 5).scheduled = 0) := by
  exact ⟨(c7_refill_scheduling demoLeads none none 10 5).1,
    (c7_refill_scheduling demoLeads none none 0 5).2.2.2.1 rfl⟩

/-- C8: when the provider call succeeds and the job carries a lead id, the
worker updates that lead with the returned call sid, contacted status and
the current time; when that database update fails the store is untouched
but the job still completes with its callSid / to / status result. -/
theorem c8_worker_lead_update (jd : JobData) (c : TwilioCall) (i : Nat)
    (leads : List Lead) (now : Time)
    (hto : jsTruthy jd.«to» = true) (hlead : jd.lead_id = some i) :
    (∀ dbOk : Bool,
      (workerProcess true jd (.ok c) dbOk leads now).1 =
        .ok { success := true, callSid := c.sid, «to» := jd.«to».getD ""
              status := c.status, lead_id := some i, timestamp := now }) ∧
    ((workerProcess true jd (.ok c) true leads now).2 =
      Lead.applyWorkerUpdate leads i c.sid now) ∧
    ((workerProcess true jd (.ok c) false leads now).2 = leads) ∧
    (∀ l ∈ (workerProcess true jd (.ok c) true leads now).2, l.id = i →
      l.call_sid = some c.sid ∧ l.lead_status = "contacted" ∧
      l.last_contacted_at = some now) := by
  refine ⟨?_, ?_, ?_, ?_⟩
  · intro dbOk
    cases dbOk <;> simp [workerProcess, processCallJob, hto, hlead]
  · simp [workerProcess, processCallJob, hto, hlead]
  · simp [workerProcess, processCallJob, hto, hlead]
  · intro l hl hid
    simp only [workerProcess, processCallJob, hto, hlead] at hl
    simp only [Bool.not_true, Bool.false_eq_true, if_false, ite_true,
      Bool.and_self, Lead.applyWorkerUpdate, List.mem_map] at hl
    rcases hl with ⟨l0, _, rfl⟩
    by_cases h0 : l0.id = i
    · simp [h0]
    · rw [if_neg h0] at hid ⊢
      exact absurd hid h0

/-- C8 witness: concrete job data with lead 1, a successful provider call
CA123, and a failing database update; the job still returns its result and
the store is unchanged. -/
theorem c8_witness :
    ((workerProcess true demoJobData (.ok demoTwilioCall) false [demoLead] 9).1 =
      .ok { success := true, callSid := "CA123", «to» := "+15551234567"
            status := "queued", lead_id := some 1, timestamp := 9 }) ∧
    ((workerProcess true demoJobData (.ok demoTwilioCall) false [demoLead] 9).2 =
      [demoLead]) := by
  have h := c8_worker_lead_update demoJobData demoTwilioCall 1 [demoLead] 9
    (by rfl) rfl
  exact ⟨h.1 false, h.2.2.1⟩

/-- C9: with an initialized, connected session, a provider media frame is
forwarded to the AI socket as an input_audio_buffer.append message exactly
when its track is inbound; outbound frames are never forwarded, whatever
the session state. -/
theorem c9_inbound_only_forwarding (conn : AIConn) (track payload : String)
    (hc : conn.isConnected = true) (hw : conn.wsOpen = true) :
    ((mediaEventForward (some conn) track payload =
        some { type := "input_audio_buffer.append", audio := payload }) ↔
      track = "inbound") ∧
    (∀ (s : Option AIConn) (p : String), mediaEventForward s "outbound" p = none) := by
  constructor
  · constructor
    · intro h
      by_contra hne
      simp [mediaEventForward, hne] at h
    · intro h
      subst h
      simp [mediaEventForward, handleIncomingAudio, sendToOpenAI, hc, hw]
  · intro s p
    cases s <;> simp [mediaEventForward]

/-- C9 witness: a connected session forwards a concrete inbound payload. -/
theorem c9_witness :
    mediaEventForward (some { isConnected := true, wsOpen := true })
        "inbound" "QUJD" =
      some { type := "input_audio_buffer.append", audio := "QUJD" } :=
  ((c9_inbound_only_forwarding { isConnected := true, wsOpen := true }
    "inbound" "QUJD" rfl rfl).1).mpr rfl

/-- C5 counterexample: composing the start handler's retry loop with the
background reconnect chains of the sessions it abandons un-closed, a call
whose attempts all fail makes 9 connect attempts, not at most 3; and with
all three awaited attempts failing (so the clear marker is sent) but the
first orphan's background reconnect succeeding, reconnection continues
after the clear marker, that orphan ends connected, and the transcript
insert path it can reach still writes a row. -/
theorem c5_counterexample :
    (callTotalAttempts c5AllFail = 9) ∧
    ¬(callTotalAttempts c5AllFail ≤ 3) ∧
    ((initOpenAI fun i => c5AllFail i 0).clearSent = true) ∧
    ((initOpenAI fun i => c5OrphanRevival i 0).clearSent = true) ∧
    (sessionAttemptCount (c5OrphanRevival 0) = 2) ∧
    (orphanEventuallyConnects c5OrphanRevival = true) ∧
    ((saveTranscriptToDatabase none [] "CA500" "assistant" "greeting"
        (some "item_500") 9).2.length = 1) := by
  refine ⟨rfl, by decide, rfl, rfl, rfl, rfl, rfl⟩

/-- C5 (amended): each connect attempt runs under the 10 s deadline; each
session object caps its own chain at maxRetries = 3 attempts, and a
session whose first (handler-awaited) attempt failed always makes at least
a second attempt in the background because the handler abandons it without
closing it; the start handler creates at most 3 sessions, so a call sees
at most 9 connect attempts in total, not 3; when all three awaited
attempts fail the handler sends the clear marker and stores no session, so
the media path forwards nothing through the handler's session, but the
abandoned sessions' chains keep running and some orphan ends connected
exactly when one of its background attempts succeeds, at which point its
message handler can still write transcripts for the call. -/
theorem c5_connect_retry_semantics (outcome : Nat → Nat → Bool)
    (f : Nat → Bool) :
    (sessionAttemptCount f ≤ sessionMaxRetries) ∧
    (f 0 = false → 2 ≤ sessionAttemptCount f) ∧
    ((f 0 = false ∧ f 1 = false ∧ f 2 = false) →
      runConnectChain {} [f 0, f 1, f 2] =
        { connectionAttempts := 3, isConnected := false, hasFailed := true
          fallbackSent := true }) ∧
    (callTotalAttempts outcome ≤ handlerMaxRetries * sessionMaxRetries) ∧
    ((∀ k, outcome k 0 = false) →
      (initOpenAI fun i => outcome i 0).clearSent = true ∧
      (initOpenAI fun i => outcome i 0).session = none ∧
      (∀ track payload,
        mediaEventForward (initOpenAI fun i => outcome i 0).session track
          payload = none) ∧
      callTotalAttempts outcome =
        sessionAttemptCount (outcome 0) + sessionAttemptCount (outcome 1) +
          sessionAttemptCount (outcome 2) ∧
      orphanEventuallyConnects outcome =
        ((outcome 0 1 || outcome 0 2) ||
          ((outcome 1 1 || outcome 1 2) || (outcome 2 1 || outcome 2 2)))) ∧
    (connectTimeoutMs = 10000 ∧ sessionMaxRetries = 3 ∧
      handlerMaxRetries = 3) := by
  refine ⟨sessionAttemptCount_le_three f, ?_, ?_, ?_, ?_, rfl, rfl, rfl⟩
  · intro h0
    simp only [sessionAttemptCount, h0, Bool.false_eq_true, if_false]
    split <;> omega
  · rintro ⟨h0, h1, h2⟩
    simp [runConnectChain, sessionMaxRetries, h0, h1, h2]
  · have b0 := sessionAttemptCount_le_three (outcome 0)
    have b1 := sessionAttemptCount_le_three (outcome 1)
    have b2 := sessionAttemptCount_le_three (outcome 2)
    simp only [callTotalAttempts, handlerMaxRetries, sessionMaxRetries]
    split_ifs <;> omega
  · intro hall
    have h0 := hall 0
    have h1 := hall 1
    have h2 := hall 2
    have hinit : (initOpenAI fun i => outcome i 0) =
        { session := none, clearSent := true, attemptsUsed := 3 } := by
      simp [initOpenAI, h0, h1, h2]
    refine ⟨by rw [hinit], by rw [hinit], ?_, ?_, ?_⟩
    · intro track payload
      rw [hinit]
      simp only [mediaEventForward]
      split <;> rfl
    · simp [callTotalAttempts, h0, h1, h2]
    · simp only [orphanEventuallyConnects]
      rw [if_neg (by simp [h0]), if_neg (by simp [h1]), if_neg (by simp [h2])]
      rw [runConnectChain_isConnected (outcome 0),
        runConnectChain_isConnected (outcome 1),
        runConnectChain_isConnected (outcome 2)]
      simp [h0, h1, h2]

/-- C5 witness: the amended theorem applied at the all-fail outcomes. -/
theorem c5_witness :
    (callTotalAttempts c5AllFail ≤ handlerMaxRetries * sessionMaxRetries) ∧
    ((initOpenAI fun i => c5AllFail i 0).clearSent = true) ∧
    (2 ≤ sessionAttemptCount (c5AllFail 0)) := by
  have h := c5_connect_retry_semantics c5AllFail (c5AllFail 0)
  exact ⟨h.2.2.2.1, (h.2.2.2.2.1 (fun k => rfl)).1, h.2.1 rfl⟩

end VoMind
